import Mathlib

/-!
Verification of the META-SPRINT Monte Carlo comparison program
(`compare_methods.py`): a simulation comparing three meta-analysis
workflow methodologies.  Python floats are modelled as rationals (ℚ);
the few places where IEEE special values matter (`numpy` division by
zero) are modelled by an extended value type.  Randomness is modelled
by passing the sequence of draws a generator makes explicitly, with a
validity predicate recording the range of each `random.uniform` /
`random.random` call.
-/

namespace Metasprint

/-- Embeds the dataclass `QualityMetrics`: quality outcomes for one
simulated meta-analysis project.  Floats become ℚ, `time_days` ℤ. -/
structure QualityMetrics where
  protocol_adherence : ℚ := 0
  data_accuracy : ℚ := 0
  reproducibility : ℚ := 0
  audit_readiness : ℚ := 0
  error_rate : ℚ := 0
  time_days : ℤ := 0
  grade_completed : Bool := false
  deviations_logged : Bool := false
deriving DecidableEq

/-- Embeds the property `QualityMetrics.overall_quality`: the composite
quality score.  The weights dictionary of the source is inlined; the
two bonus additions mirror the two `if` statements. -/
def QualityMetrics.overall_quality (m : QualityMetrics) : ℚ :=
  let score :=
    m.protocol_adherence * 0.20 +
    m.data_accuracy * 0.25 +
    m.reproducibility * 0.20 +
    m.audit_readiness * 0.15 +
    (1 - m.error_rate) * 0.20
  let score := if m.grade_completed then score + 0.05 else score
  let score := if m.deviations_logged then score + 0.05 else score
  min (score * 100) 100

/-- The composite score as the SPEC words it (section 3 of the design
document): a weighted linear combination with weights 0.20 / 0.25 /
0.20 / 0.15 / 0.20, plus a flat 0.05 bonus for each of the two boolean
flags, scaled by 100 and capped at 100.  Used only to compare against
the code's `QualityMetrics.overall_quality`. -/
def spec_overall_quality (m : QualityMetrics) : ℚ :=
  min ((m.protocol_adherence * 0.20 + m.data_accuracy * 0.25 +
        m.reproducibility * 0.20 + m.audit_readiness * 0.15 +
        (1 - m.error_rate) * 0.20 +
        (if m.grade_completed then 0.05 else 0) +
        (if m.deviations_logged then 0.05 else 0)) * 100) 100

/-- The random draws consumed by one call of `simulate_traditional`,
in source order.  `g` and `d` are the `random.random()` values behind
the two Bernoulli flags. -/
structure TradDraws where
  protocol_drift : ℚ
  pa : ℚ
  da : ℚ
  rep : ℚ
  ar : ℚ
  er : ℚ
  time : ℤ
  g : ℚ
  d : ℚ
deriving DecidableEq

/-- Ranges of the draws of `simulate_traditional`, read off the
`random.uniform` / `random.randint` / `random.random` calls. -/
def TradDraws.valid (r : TradDraws) : Prop :=
  0.3 ≤ r.protocol_drift ∧ r.protocol_drift ≤ 0.5 ∧
  0.5 ≤ r.pa ∧ r.pa ≤ 0.8 ∧
  0.7 ≤ r.da ∧ r.da ≤ 0.9 ∧
  0.3 ≤ r.rep ∧ r.rep ≤ 0.6 ∧
  0.2 ≤ r.ar ∧ r.ar ≤ 0.5 ∧
  0.1 ≤ r.er ∧ r.er ≤ 0.3 ∧
  90 ≤ r.time ∧ r.time ≤ 365 ∧
  0 ≤ r.g ∧ r.g < 1 ∧ 0 ≤ r.d ∧ r.d < 1

instance (r : TradDraws) : Decidable r.valid := by
  unfold TradDraws.valid; infer_instance

/-- Embeds `simulate_traditional`: the ad-hoc baseline generator.
`n_studies` and `team_size` are accepted (defaults 40 and 6 in the
source) and, exactly as in the source body, never read. -/
def simulate_traditional (n_studies team_size : ℤ) (r : TradDraws) :
    QualityMetrics :=
  { protocol_adherence := r.pa - r.protocol_drift * 0.3
    data_accuracy := r.da
    reproducibility := r.rep
    audit_readiness := r.ar
    error_rate := r.er
    time_days := r.time
    grade_completed := decide (r.g < 0.4)
    deviations_logged := decide (r.d < 0.3) }

/-- The random draws consumed by one call of `simulate_structured`. -/
structure StructDraws where
  pa : ℚ
  da : ℚ
  rep : ℚ
  ar : ℚ
  er : ℚ
  time : ℤ
  g : ℚ
  d : ℚ
deriving DecidableEq

/-- Ranges of the draws of `simulate_structured`. -/
def StructDraws.valid (r : StructDraws) : Prop :=
  0.65 ≤ r.pa ∧ r.pa ≤ 0.85 ∧
  0.75 ≤ r.da ∧ r.da ≤ 0.92 ∧
  0.5 ≤ r.rep ∧ r.rep ≤ 0.75 ∧
  0.5 ≤ r.ar ∧ r.ar ≤ 0.7 ∧
  0.05 ≤ r.er ∧ r.er ≤ 0.2 ∧
  60 ≤ r.time ∧ r.time ≤ 180 ∧
  0 ≤ r.g ∧ r.g < 1 ∧ 0 ≤ r.d ∧ r.d < 1

instance (r : StructDraws) : Decidable r.valid := by
  unfold StructDraws.valid; infer_instance

/-- Embeds `simulate_structured`: the checklist-based generator.
`n_studies` and `team_size` (defaults 40 and 6) are never read. -/
def simulate_structured (n_studies team_size : ℤ) (r : StructDraws) :
    QualityMetrics :=
  { protocol_adherence := r.pa
    data_accuracy := r.da
    reproducibility := r.rep
    audit_readiness := r.ar
    error_rate := r.er
    time_days := r.time
    grade_completed := decide (r.g < 0.6)
    deviations_logged := decide (r.d < 0.5) }

/-- Gate A Bernoulli outcome: `random.random() < 0.95` (protocol lock). -/
def dod_a_pass (u : ℚ) : Bool := decide (u < 0.95)

/-- Gate B Bernoulli outcome: `random.random() < 0.92` (search lock). -/
def dod_b_pass (u : ℚ) : Bool := decide (u < 0.92)

/-- Gate C Bernoulli outcome: `random.random() < 0.90` (extraction lock). -/
def dod_c_pass (u : ℚ) : Bool := decide (u < 0.90)

/-- Gate D Bernoulli outcome: `random.random() < 0.88` (analysis lock). -/
def dod_d_pass (u : ℚ) : Bool := decide (u < 0.88)

/-- The random draws consumed by one call of `simulate_metasprint`, in
source order: the four gate uniforms, the two audit catch-fractions,
the red-team improvement, then the field draws and the conditional-GO
uniform. -/
structure MetaDraws where
  u_a : ℚ
  u_b : ℚ
  u_c : ℚ
  u_d : ℚ
  audit1_errors_caught : ℚ
  audit2_errors_caught : ℚ
  redteam_improvement : ℚ
  pa : ℚ
  base_accuracy : ℚ
  rep : ℚ
  ar : ℚ
  initial_errors : ℚ
  u_condgo : ℚ
deriving DecidableEq

/-- Ranges of the draws of `simulate_metasprint`. -/
def MetaDraws.valid (r : MetaDraws) : Prop :=
  0 ≤ r.u_a ∧ r.u_a < 1 ∧ 0 ≤ r.u_b ∧ r.u_b < 1 ∧
  0 ≤ r.u_c ∧ r.u_c < 1 ∧ 0 ≤ r.u_d ∧ r.u_d < 1 ∧
  0.6 ≤ r.audit1_errors_caught ∧ r.audit1_errors_caught ≤ 0.9 ∧
  0.7 ≤ r.audit2_errors_caught ∧ r.audit2_errors_caught ≤ 0.95 ∧
  0.05 ≤ r.redteam_improvement ∧ r.redteam_improvement ≤ 0.15 ∧
  0.85 ≤ r.pa ∧ r.pa ≤ 0.98 ∧
  0.85 ≤ r.base_accuracy ∧ r.base_accuracy ≤ 0.95 ∧
  0.85 ≤ r.rep ∧ r.rep ≤ 0.98 ∧
  0.9 ≤ r.ar ∧ r.ar ≤ 0.99 ∧
  0.15 ≤ r.initial_errors ∧ r.initial_errors ≤ 0.25 ∧
  0 ≤ r.u_condgo ∧ r.u_condgo < 1

instance (r : MetaDraws) : Decidable r.valid := by
  unfold MetaDraws.valid; infer_instance

/-- Embeds `simulate_metasprint`: the gated/audited generator.
`n_studies` and `team_size` (defaults 40 and 12) are never read.  The
locals mirror the source: the gates `dod_b` and `dod_c` are drawn but,
as in the source, never used afterward. -/
def simulate_metasprint (n_studies team_size : ℤ) (r : MetaDraws) :
    QualityMetrics :=
  let dod_a := dod_a_pass r.u_a
  let dod_b := dod_b_pass r.u_b
  let dod_c := dod_c_pass r.u_c
  let dod_d := dod_d_pass r.u_d
  let protocol_adherence := if dod_a then r.pa else r.pa - 0.1
  let data_accuracy := min (r.base_accuracy + r.redteam_improvement) 0.99
  let reproducibility := if dod_d then r.rep else r.rep - 0.1
  let errors_after_audit1 := r.initial_errors * (1 - r.audit1_errors_caught)
  let errors_after_audit2 := errors_after_audit1 * (1 - r.audit2_errors_caught)
  let error_rate := max errors_after_audit2 0.01
  let time_days : ℤ := if r.u_condgo < 0.15 then 45 else 40
  { protocol_adherence := protocol_adherence
    data_accuracy := data_accuracy
    reproducibility := reproducibility
    audit_readiness := r.ar
    error_rate := error_rate
    time_days := time_days
    grade_completed := true
    deviations_logged := true }

/-- The per-method record sequences returned by `run_simulation`
(a dict keyed by the three members of the `Method` enum). -/
structure SimResults where
  traditional : List QualityMetrics
  structured : List QualityMetrics
  metasprint : List QualityMetrics
deriving DecidableEq

/-- Embeds `run_simulation`: repeats each generator `n_iterations`
times with the source's default structural parameters.  The three draw
streams supply the randomness of iteration `i`; a non-positive count
makes `range(n_iterations)` empty, hence `Int.toNat`. -/
def run_simulation (n_iterations : ℤ) (tr : ℕ → TradDraws)
    (st : ℕ → StructDraws) (ms : ℕ → MetaDraws) : SimResults :=
  { traditional :=
      (List.range n_iterations.toNat).map fun i => simulate_traditional 40 6 (tr i)
    structured :=
      (List.range n_iterations.toNat).map fun i => simulate_structured 40 6 (st i)
    metasprint :=
      (List.range n_iterations.toNat).map fun i => simulate_metasprint 40 12 (ms i) }

/-- The kinds of exception relevant to this program.
`zeroDivisionError` is Python's `ZeroDivisionError`; `valueError`
stands for the explicit invalid-input signal (`ValueError`) the design
document's error taxonomy calls for.  The source never raises the
latter. -/
inductive PyErr where
  | zeroDivisionError
  | valueError
deriving DecidableEq

/-- Python's true division `a / b` on numbers: raises
`ZeroDivisionError` on a zero divisor, otherwise returns the exact
quotient. -/
def pyDiv (a b : ℚ) : Except PyErr ℚ :=
  if b = 0 then .error .zeroDivisionError else .ok (a / b)

/-- `np.mean`: arithmetic mean of a list (only reached on nonempty
lists in this development). -/
def npMean (l : List ℚ) : ℚ := l.sum / l.length

/-- Population variance, the square of `np.std`. -/
def npVar (l : List ℚ) : ℚ := npMean (l.map fun x => (x - npMean l) ^ 2)

/-- `np.std` (population standard deviation).  The floating-point
square root is abstracted as the explicit function argument `sqrt`,
since no verified property depends on its value. -/
def npStd (sqrt : ℚ → ℚ) (l : List ℚ) : ℚ := sqrt (npVar l)

/-- `np.percentile` with the default linear-interpolation method:
position `q/100 * (n-1)` in the sorted data, interpolated between the
neighbouring order statistics. -/
def npPercentile (l : List ℚ) (q : ℚ) : ℚ :=
  let s := l.mergeSort fun a b => decide (a ≤ b)
  let pos : ℚ := q / 100 * ((l.length : ℚ) - 1)
  let lo := (Int.floor pos).toNat
  let hi := (Int.ceil pos).toNat
  let frac : ℚ := pos - (lo : ℚ)
  s.getD lo 0 + frac * (s.getD hi 0 - s.getD lo 0)

/-- The per-method summary dict built by `analyze_results`. -/
structure Summary where
  quality_mean : ℚ
  quality_std : ℚ
  quality_95ci : ℚ × ℚ
  error_rate_mean : ℚ
  error_rate_std : ℚ
  time_mean : ℚ
  time_std : ℚ
  reproducibility_mean : ℚ
  grade_completion : ℚ
deriving DecidableEq

/-- Embeds the loop body of `analyze_results` for one method's record
list.  The locals are computed in source order; the completion-rate
line divides by `len(metrics_list)` with Python division, which is the
only fallible step (it raises `ZeroDivisionError` on an empty list,
before any of the numpy statistics in the dict literal are taken). -/
def analyze_method (sqrt : ℚ → ℚ) (metrics_list : List QualityMetrics) :
    Except PyErr Summary := do
  let quality_scores := metrics_list.map fun m => m.overall_quality
  let error_rates := metrics_list.map fun m => m.error_rate * 100
  let times := metrics_list.map fun m => (m.time_days : ℚ)
  let reproducibility := metrics_list.map fun m => m.reproducibility * 100
  let grade_frac ← pyDiv ((metrics_list.filter fun m => m.grade_completed).length)
    metrics_list.length
  let grade_pct := grade_frac * 100
  pure
    { quality_mean := npMean quality_scores
      quality_std := npStd sqrt quality_scores
      quality_95ci := (npPercentile quality_scores 2.5, npPercentile quality_scores 97.5)
      error_rate_mean := npMean error_rates
      error_rate_std := npStd sqrt error_rates
      time_mean := npMean times
      time_std := npStd sqrt times
      reproducibility_mean := npMean reproducibility
      grade_completion := grade_pct }

/-- The summary mapping (one `Summary` per `Method` key). -/
structure SummaryMap where
  traditional : Summary
  structured : Summary
  metasprint : Summary
deriving DecidableEq

/-- Embeds `analyze_results`: folds `analyze_method` over the three
methods in the dict's insertion order. -/
def analyze_results (sqrt : ℚ → ℚ) (results : SimResults) :
    Except PyErr SummaryMap := do
  let t ← analyze_method sqrt results.traditional
  let s ← analyze_method sqrt results.structured
  let m ← analyze_method sqrt results.metasprint
  pure { traditional := t, structured := s, metasprint := m }

/-- A value of `numpy` float64 arithmetic: a finite number, a signed
infinity, or NaN.  Only the operations the comparator performs are
modelled. -/
inductive PyFloat where
  | val (x : ℚ)
  | inf
  | neginf
  | nan
deriving DecidableEq

/-- `numpy` float64 division of finite operands: a zero divisor warns
and yields a signed infinity (or NaN for 0/0) instead of raising. -/
def npDivF (a b : ℚ) : PyFloat :=
  if b = 0 then
    if 0 < a then .inf else if a < 0 then .neginf else .nan
  else
    .val (a / b)

/-- Multiplying a `numpy` float64 by a positive finite constant:
infinities and NaN are preserved. -/
def pfMulPos (x : PyFloat) (c : ℚ) : PyFloat :=
  match x with
  | .val a => .val (a * c)
  | .inf => .inf
  | .neginf => .neginf
  | .nan => .nan

/-- The four relative deltas the "KEY FINDINGS" block of
`print_comparison_table` computes from the baseline and META-SPRINT
summaries. -/
structure KeyFindings where
  quality_improvement : PyFloat
  error_reduction : PyFloat
  time_reduction : PyFloat
  repro_improvement : PyFloat
deriving DecidableEq

/-- Embeds the comparator: the delta computations of
`print_comparison_table` (`trad` is `summary[Method.TRADITIONAL]`,
`sprint` is `summary[Method.METASPRINT]`).  The divisions are numpy
float64 divisions and carry no zero-guard, exactly as in the source. -/
def key_findings (trad sprint : Summary) : KeyFindings :=
  { quality_improvement :=
      pfMulPos (npDivF (sprint.quality_mean - trad.quality_mean) trad.quality_mean) 100
    error_reduction :=
      pfMulPos (npDivF (trad.error_rate_mean - sprint.error_rate_mean) trad.error_rate_mean) 100
    time_reduction :=
      pfMulPos (npDivF (trad.time_mean - sprint.time_mean) trad.time_mean) 100
    repro_improvement :=
      pfMulPos (npDivF (sprint.reproducibility_mean - trad.reproducibility_mean) trad.reproducibility_mean) 100 }

/-- All five probability-like fields of a record lie in `[0, 1]`. -/
def fieldsIn01 (m : QualityMetrics) : Prop :=
  (0 ≤ m.protocol_adherence ∧ m.protocol_adherence ≤ 1) ∧
  (0 ≤ m.data_accuracy ∧ m.data_accuracy ≤ 1) ∧
  (0 ≤ m.reproducibility ∧ m.reproducibility ≤ 1) ∧
  (0 ≤ m.audit_readiness ∧ m.audit_readiness ≤ 1) ∧
  (0 ≤ m.error_rate ∧ m.error_rate ≤ 1)

instance (m : QualityMetrics) : Decidable (fieldsIn01 m) := by
  unfold fieldsIn01; infer_instance

lemma overall_quality_bounds (m : QualityMetrics) (h : fieldsIn01 m) :
    0 ≤ m.overall_quality ∧ m.overall_quality ≤ 100 := by
  obtain ⟨⟨h1, h1u⟩, ⟨h2, h2u⟩, ⟨h3, h3u⟩, ⟨h4, h4u⟩, ⟨h5, h5u⟩⟩ := h
  simp only [QualityMetrics.overall_quality]
  refine ⟨le_min ?_ (by norm_num), min_le_right _ _⟩
  split_ifs <;> nlinarith

lemma meta_error_core_bounds (i c1 c2 : ℚ) (hin : 0 ≤ i) (hi : i ≤ 0.25)
    (hc1 : 0.6 ≤ c1) (hc1u : c1 ≤ 1) (hc2 : 0.7 ≤ c2) (hc2u : c2 ≤ 1) :
    0 ≤ i * (1 - c1) * (1 - c2) ∧ i * (1 - c1) * (1 - c2) ≤ 0.03 := by
  have e1 : (0 : ℚ) ≤ 1 - c1 := by linarith
  have e2 : (0 : ℚ) ≤ 1 - c2 := by linarith
  refine ⟨mul_nonneg (mul_nonneg hin e1) e2, ?_⟩
  have hA : i * (1 - c1) ≤ 0.25 * 0.4 := mul_le_mul hi (by linarith) e1 (by norm_num)
  have hB : i * (1 - c1) * (1 - c2) ≤ 0.25 * 0.4 * 0.3 :=
    mul_le_mul hA (by linarith) e2 (by norm_num)
  linarith

lemma simulate_traditional_fields (a b : ℤ) (r : TradDraws) (h : r.valid) :
    fieldsIn01 (simulate_traditional a b r) := by
  obtain ⟨d1, d2, p1, p2, a1, a2, r1, r2, u1, u2, e1, e2, -, -, -, -, -, -⟩ := h
  simp only [simulate_traditional, fieldsIn01]
  refine ⟨⟨?_, ?_⟩, ⟨?_, ?_⟩, ⟨?_, ?_⟩, ⟨?_, ?_⟩, ⟨?_, ?_⟩⟩ <;> linarith

lemma simulate_structured_fields (a b : ℤ) (r : StructDraws) (h : r.valid) :
    fieldsIn01 (simulate_structured a b r) := by
  obtain ⟨p1, p2, a1, a2, r1, r2, u1, u2, e1, e2, -, -, -, -, -, -⟩ := h
  simp only [simulate_structured, fieldsIn01]
  refine ⟨⟨?_, ?_⟩, ⟨?_, ?_⟩, ⟨?_, ?_⟩, ⟨?_, ?_⟩, ⟨?_, ?_⟩⟩ <;> linarith

lemma simulate_metasprint_fields (a b : ℤ) (r : MetaDraws) (h : r.valid) :
    fieldsIn01 (simulate_metasprint a b r) := by
  obtain ⟨-, -, -, -, -, -, -, -, c11, c12, c21, c22, rt1, rt2, p1, p2,
    b1, b2, rr1, rr2, ar1, ar2, i1, i2, -, -⟩ := h
  have hcore := meta_error_core_bounds r.initial_errors r.audit1_errors_caught
    r.audit2_errors_caught (by linarith) i2 c11 (by linarith) c21 (by linarith)
  simp only [simulate_metasprint, fieldsIn01]
  refine ⟨⟨?_, ?_⟩, ⟨?_, ?_⟩, ⟨?_, ?_⟩, ⟨?_, ?_⟩, ⟨?_, ?_⟩⟩
  · split_ifs <;> linarith
  · split_ifs <;> linarith
  · exact le_min (by linarith) (by norm_num)
  · exact (min_le_right _ _).trans (by norm_num)
  · split_ifs <;> linarith
  · split_ifs <;> linarith
  · linarith
  · linarith
  · exact le_trans (by norm_num) (le_max_right _ _)
  · exact max_le (by linarith [hcore.2]) (by norm_num)

/-- A concrete in-range draw record for the baseline generator. -/
def tradW : TradDraws :=
  { protocol_drift := 0.4, pa := 0.6, da := 0.8, rep := 0.5, ar := 0.3,
    er := 0.2, time := 100, g := 0.5, d := 0.5 }

/-- A concrete in-range draw record for the structured generator. -/
def structW : StructDraws :=
  { pa := 0.7, da := 0.8, rep := 0.6, ar := 0.6, er := 0.1,
    time := 100, g := 0.5, d := 0.5 }

/-- A concrete in-range draw record for the gated generator (all four
gates pass). -/
def metaW : MetaDraws :=
  { u_a := 0.5, u_b := 0.5, u_c := 0.5, u_d := 0.5,
    audit1_errors_caught := 0.7, audit2_errors_caught := 0.8,
    redteam_improvement := 0.1, pa := 0.9, base_accuracy := 0.9,
    rep := 0.9, ar := 0.95, initial_errors := 0.2, u_condgo := 0.5 }

/-- `metaW` with gates B and C failing (draws above their thresholds),
everything else identical. -/
def metaGateFailBC : MetaDraws := { metaW with u_b := 0.93, u_c := 0.93 }

lemma tradW_valid : tradW.valid := by
  simp only [TradDraws.valid, tradW]; norm_num

lemma structW_valid : structW.valid := by
  simp only [StructDraws.valid, structW]; norm_num

lemma metaW_valid : metaW.valid := by
  simp only [MetaDraws.valid, metaW]; norm_num

/-- A baseline summary with a zero mean quality, used to exercise the
comparator's unguarded division. -/
def tradZeroSummary : Summary :=
  { quality_mean := 0, quality_std := 5, quality_95ci := (0, 0),
    error_rate_mean := 20, error_rate_std := 3, time_mean := 200,
    time_std := 40, reproducibility_mean := 45, grade_completion := 35 }

/-- A typical gated-method summary with a positive mean quality. -/
def sprintSummary : Summary :=
  { quality_mean := 90, quality_std := 2, quality_95ci := (85, 95),
    error_rate_mean := 2, error_rate_std := 1, time_mean := 41,
    time_std := 2, reproducibility_mean := 92, grade_completion := 100 }

/-- C1 (counterexample): at a concrete baseline summary whose mean
quality is exactly 0, the comparator does not signal anything — its
quality delta computes to positive infinity, which is what the
unguarded numpy float64 division produces and what the claim says must
not be propagated. -/
theorem comparator_silent_infinity_counterexample :
    (key_findings
      { quality_mean := 0, quality_std := 5, quality_95ci := (0, 0),
        error_rate_mean := 20, error_rate_std := 3, time_mean := 200,
        time_std := 40, reproducibility_mean := 45, grade_completion := 35 }
      { quality_mean := 90, quality_std := 2, quality_95ci := (85, 95),
        error_rate_mean := 2, error_rate_std := 1, time_mean := 41,
        time_std := 2, reproducibility_mean := 92, grade_completion := 100 }).quality_improvement
      = PyFloat.inf := by
  norm_num [key_findings, npDivF, pfMulPos]

/-- C1 (amended): the comparator's delta computation has no zero-guard;
whenever the baseline mean quality is exactly 0 and the gated mean
quality is positive, the relative quality delta silently evaluates to
positive infinity (numpy float64 division), and no error condition is
signalled. -/
theorem comparator_zero_baseline_yields_infinity (t s : Summary)
    (h0 : t.quality_mean = 0) (hpos : 0 < s.quality_mean) :
    (key_findings t s).quality_improvement = PyFloat.inf := by
  have e : (key_findings t s).quality_improvement =
      pfMulPos (npDivF (s.quality_mean - t.quality_mean) t.quality_mean) 100 := rfl
  rw [e, h0, sub_zero]
  unfold npDivF
  rw [if_pos rfl, if_pos hpos]
  rfl

/-- C1 (witness): the amended comparator theorem applied at concrete
summaries. -/
theorem comparator_zero_baseline_yields_infinity_witness :
    tradZeroSummary.quality_mean = 0 ∧ 0 < sprintSummary.quality_mean ∧
    (key_findings tradZeroSummary sprintSummary).quality_improvement = PyFloat.inf := by
  have h0 : tradZeroSummary.quality_mean = 0 := rfl
  have h1 : (0 : ℚ) < sprintSummary.quality_mean := by norm_num [sprintSummary]
  exact ⟨h0, h1, comparator_zero_baseline_yields_infinity _ _ h0 h1⟩

/-- C2 (counterexample): on an empty record list the aggregator raises
`ZeroDivisionError` (from the completion-rate division `0 / 0`), which
is a different error kind than the explicit invalid-input signal
(`ValueError`) the claim requires. -/
theorem analyze_method_empty_counterexample :
    analyze_method (fun x => x) [] = .error .zeroDivisionError ∧
    (Except.error PyErr.zeroDivisionError : Except PyErr Summary) ≠
      .error .valueError := by
  refine ⟨by simp [analyze_method, pyDiv], ?_⟩
  intro h
  injection h with h
  exact PyErr.noConfusion h

/-- C2 (amended): given an empty sequence of records the aggregator
fails before producing any NaN statistics, but with an incidental
`ZeroDivisionError` raised by the completion-rate division — a
catchable exception, not a distinct explicit invalid-input error. -/
theorem analyze_method_empty_raises_zero_division (sqrt : ℚ → ℚ) :
    analyze_method sqrt [] = .error .zeroDivisionError := by
  simp [analyze_method, pyDiv]

/-- C3: for every record, the derived `overall_quality` equals the
spec's weighted linear combination (weights 0.20 / 0.25 / 0.20 / 0.15 /
0.20 on adherence, accuracy, reproducibility, audit readiness and
1 − error rate), plus a flat 0.05 pre-scaling bonus per boolean flag,
scaled by 100 and capped at 100. -/
theorem overall_quality_matches_spec (m : QualityMetrics) :
    m.overall_quality = spec_overall_quality m := by
  obtain ⟨pa, da, rep, ar, er, t, g, d⟩ := m
  simp only [QualityMetrics.overall_quality, spec_overall_quality]
  cases g <;> cases d <;> simp

/-- C4: every record produced by any of the three generators from
in-range draws has all five probability-like fields in [0, 1] and a
derived overall quality in [0, 100]. -/
theorem generated_records_in_range (a b c d e f : ℤ)
    (rt : TradDraws) (rs : StructDraws) (rm : MetaDraws)
    (ht : rt.valid) (hs : rs.valid) (hm : rm.valid) :
    (fieldsIn01 (simulate_traditional a b rt) ∧
      0 ≤ (simulate_traditional a b rt).overall_quality ∧
      (simulate_traditional a b rt).overall_quality ≤ 100) ∧
    (fieldsIn01 (simulate_structured c d rs) ∧
      0 ≤ (simulate_structured c d rs).overall_quality ∧
      (simulate_structured c d rs).overall_quality ≤ 100) ∧
    (fieldsIn01 (simulate_metasprint e f rm) ∧
      0 ≤ (simulate_metasprint e f rm).overall_quality ∧
      (simulate_metasprint e f rm).overall_quality ≤ 100) := by
  have h1 := simulate_traditional_fields a b rt ht
  have h2 := simulate_structured_fields c d rs hs
  have h3 := simulate_metasprint_fields e f rm hm
  exact ⟨⟨h1, (overall_quality_bounds _ h1).1, (overall_quality_bounds _ h1).2⟩,
    ⟨h2, (overall_quality_bounds _ h2).1, (overall_quality_bounds _ h2).2⟩,
    ⟨h3, (overall_quality_bounds _ h3).1, (overall_quality_bounds _ h3).2⟩⟩

/-- C4 (witness): the range theorem applied at concrete in-range draws
for all three generators with the source's default parameters. -/
theorem generated_records_in_range_witness :
    TradDraws.valid tradW ∧ StructDraws.valid structW ∧ MetaDraws.valid metaW ∧
    ((fieldsIn01 (simulate_traditional 40 6 tradW) ∧
      0 ≤ (simulate_traditional 40 6 tradW).overall_quality ∧
      (simulate_traditional 40 6 tradW).overall_quality ≤ 100) ∧
    (fieldsIn01 (simulate_structured 40 6 structW) ∧
      0 ≤ (simulate_structured 40 6 structW).overall_quality ∧
      (simulate_structured 40 6 structW).overall_quality ≤ 100) ∧
    (fieldsIn01 (simulate_metasprint 40 12 metaW) ∧
      0 ≤ (simulate_metasprint 40 12 metaW).overall_quality ∧
      (simulate_metasprint 40 12 metaW).overall_quality ≤ 100)) :=
  ⟨tradW_valid, structW_valid, metaW_valid,
    generated_records_in_range 40 6 40 6 40 12 tradW structW metaW
      tradW_valid structW_valid metaW_valid⟩

/-- C5 (counterexample): gates B and C of the gated generator are drawn
but never used — a record whose gate-B and gate-C draws fail is
identical to one where they pass, and no field is penalised, refuting
"whenever an early gate fails, protocol_adherence or reproducibility is
reduced" and "each gate's pass/fail outcome affects downstream quality
fields". -/
theorem metasprint_gate_b_c_no_effect_counterexample :
    dod_b_pass metaGateFailBC.u_b = false ∧
    dod_c_pass metaGateFailBC.u_c = false ∧
    simulate_metasprint 40 12 metaGateFailBC = simulate_metasprint 40 12 metaW ∧
    (simulate_metasprint 40 12 metaGateFailBC).protocol_adherence = metaGateFailBC.pa ∧
    (simulate_metasprint 40 12 metaGateFailBC).reproducibility = metaGateFailBC.rep := by
  refine ⟨?_, ?_, rfl, ?_, ?_⟩
  · simp only [dod_b_pass, metaGateFailBC, metaW, decide_eq_false_iff_not]
    norm_num
  · simp only [dod_c_pass, metaGateFailBC, metaW, decide_eq_false_iff_not]
    norm_num
  · simp only [simulate_metasprint, dod_a_pass, metaGateFailBC, metaW]
    norm_num
  · simp only [simulate_metasprint, dod_d_pass, metaGateFailBC, metaW]
    norm_num

/-- C5 (amended): the gated generator draws four ordered Bernoulli gate
events with strictly decreasing pass probabilities (0.95, 0.92, 0.90,
0.88); of these, only gate A's failure reduces `protocol_adherence` and
only gate D's failure reduces `reproducibility`, each by the fixed
penalty 0.1 applied after the base uniform draw, while the outcomes of
gates B and C do not affect the produced record at all. -/
theorem metasprint_gate_structure (a b : ℤ) (r : MetaDraws) :
    (∀ u : ℚ, (dod_b_pass u = true → dod_a_pass u = true) ∧
      (dod_c_pass u = true → dod_b_pass u = true) ∧
      (dod_d_pass u = true → dod_c_pass u = true)) ∧
    dod_a_pass 0.94 = true ∧ dod_b_pass 0.94 = false ∧
    dod_b_pass 0.91 = true ∧ dod_c_pass 0.91 = false ∧
    dod_c_pass 0.89 = true ∧ dod_d_pass 0.89 = false ∧
    (simulate_metasprint a b r).protocol_adherence =
      (if dod_a_pass r.u_a then r.pa else r.pa - 0.1) ∧
    (simulate_metasprint a b r).reproducibility =
      (if dod_d_pass r.u_d then r.rep else r.rep - 0.1) ∧
    (∀ ub uc : ℚ, simulate_metasprint a b { r with u_b := ub, u_c := uc } =
      simulate_metasprint a b r) := by
  refine ⟨?_, ?_, ?_, ?_, ?_, ?_, ?_, rfl, rfl, fun ub uc => rfl⟩
  · intro u
    refine ⟨?_, ?_, ?_⟩ <;>
      · simp only [dod_a_pass, dod_b_pass, dod_c_pass, dod_d_pass, decide_eq_true_eq]
        intro h
        linarith
  · simp only [dod_a_pass, decide_eq_true_eq]; norm_num
  · simp only [dod_b_pass, decide_eq_false_iff_not]; norm_num
  · simp only [dod_b_pass, decide_eq_true_eq]; norm_num
  · simp only [dod_c_pass, decide_eq_false_iff_not]; norm_num
  · simp only [dod_c_pass, decide_eq_true_eq]; norm_num
  · simp only [dod_d_pass, decide_eq_false_iff_not]; norm_num

/-- C6: the gated generator's final error rate equals the initial draw
multiplied sequentially by (1 − catch-fraction-1) and
(1 − catch-fraction-2), floored at the strictly positive residual 0.01,
and is therefore never zero. -/
theorem metasprint_error_rate_formula (a b : ℤ) (r : MetaDraws) :
    (simulate_metasprint a b r).error_rate =
      max (r.initial_errors * (1 - r.audit1_errors_caught) *
        (1 - r.audit2_errors_caught)) 0.01 ∧
    0 < (simulate_metasprint a b r).error_rate := by
  have h : (simulate_metasprint a b r).error_rate =
      max (r.initial_errors * (1 - r.audit1_errors_caught) *
        (1 - r.audit2_errors_caught)) 0.01 := rfl
  refine ⟨h, ?_⟩
  rw [h]
  exact lt_of_lt_of_le (by norm_num) (le_max_right _ _)

/-- C7 (counterexample): called with the non-positive iteration count
−1, the trial runner signals nothing and silently returns three empty
record sequences. -/
theorem run_simulation_negative_counterexample :
    run_simulation (-1) (fun _ => tradW) (fun _ => structW)
      (fun _ => metaW) = ⟨[], [], []⟩ := by
  rfl

/-- C7 (amended): for every non-positive iteration count the trial
runner returns three empty record sequences (Python's `range` of a
non-positive number is empty); no invalid-input error is signalled. -/
theorem run_simulation_nonpositive_empty (n : ℤ) (tr : ℕ → TradDraws)
    (st : ℕ → StructDraws) (ms : ℕ → MetaDraws) (h : n ≤ 0) :
    run_simulation n tr st ms = ⟨[], [], []⟩ := by
  simp [run_simulation, Int.toNat_of_nonpos h]

/-- C7 (witness): the amended runner theorem applied at iteration count
0 with concrete draw streams. -/
theorem run_simulation_nonpositive_empty_witness :
    (0 : ℤ) ≤ 0 ∧ run_simulation 0 (fun _ => tradW) (fun _ => structW)
      (fun _ => metaW) = ⟨[], [], []⟩ :=
  ⟨le_refl 0, run_simulation_nonpositive_empty 0 _ _ _ (le_refl 0)⟩

/-- C8: every record the gated generator contributes to a run has
`grade_completed` and `deviations_logged` deterministically true, for
any number of trials and any draw streams. -/
theorem metasprint_flags_always_true (n : ℤ) (tr : ℕ → TradDraws)
    (st : ℕ → StructDraws) (ms : ℕ → MetaDraws) :
    ((run_simulation n tr st ms).metasprint).all
      (fun m => m.grade_completed && m.deviations_logged) = true := by
  simp only [run_simulation, List.all_eq_true]
  intro m hm
  obtain ⟨i, -, rfl⟩ := List.mem_map.mp hm
  rfl

/-- C9: the structural parameters `n_studies` and `team_size` have no
effect on any generator — with the same random draws, any two parameter
choices produce identical records. -/
theorem structural_params_no_effect (n1 t1 n2 t2 : ℤ)
    (rt : TradDraws) (rs : StructDraws) (rm : MetaDraws) :
    simulate_traditional n1 t1 rt = simulate_traditional n2 t2 rt ∧
    simulate_structured n1 t1 rs = simulate_structured n2 t2 rs ∧
    simulate_metasprint n1 t1 rm = simulate_metasprint n2 t2 rm :=
  ⟨rfl, rfl, rfl⟩

/-- C10: for in-range draws the gated generator's error rate lies in
[0.01, 0.03] and is strictly below both the baseline generator's error
rate (always ≥ 0.1) and the structured generator's (always ≥ 0.05). -/
theorem metasprint_error_rate_below_others (a b c d e f : ℤ)
    (rm : MetaDraws) (rt : TradDraws) (rs : StructDraws)
    (hm : rm.valid) (ht : rt.valid) (hs : rs.valid) :
    0.01 ≤ (simulate_metasprint a b rm).error_rate ∧
    (simulate_metasprint a b rm).error_rate ≤ 0.03 ∧
    (simulate_metasprint a b rm).error_rate < (simulate_traditional c d rt).error_rate ∧
    (simulate_metasprint a b rm).error_rate < (simulate_structured e f rs).error_rate := by
  obtain ⟨-, -, -, -, -, -, -, -, c11, c12, c21, c22, -, -, -, -, -, -, -, -,
    -, -, i1, i2, -, -⟩ := hm
  obtain ⟨-, -, -, -, -, -, -, -, -, -, e1, -, -, -, -, -, -, -⟩ := ht
  obtain ⟨-, -, -, -, -, -, -, -, s1, -, -, -, -, -, -, -⟩ := hs
  have hcore := meta_error_core_bounds rm.initial_errors rm.audit1_errors_caught
    rm.audit2_errors_caught (by linarith) i2 c11 (by linarith) c21 (by linarith)
  have he : (simulate_metasprint a b rm).error_rate =
      max (rm.initial_errors * (1 - rm.audit1_errors_caught) *
        (1 - rm.audit2_errors_caught)) 0.01 := rfl
  have het : (simulate_traditional c d rt).error_rate = rt.er := rfl
  have hes : (simulate_structured e f rs).error_rate = rs.er := rfl
  have h03 : (simulate_metasprint a b rm).error_rate ≤ 0.03 := by
    rw [he]; exact max_le hcore.2 (by norm_num)
  refine ⟨?_, h03, ?_, ?_⟩
  · rw [he]; exact le_max_right _ _
  · rw [het]; linarith
  · rw [hes]; linarith

/-- C10 (witness): the error-rate comparison theorem applied at
concrete in-range draws for all three generators. -/
theorem metasprint_error_rate_below_others_witness :
    MetaDraws.valid metaW ∧ TradDraws.valid tradW ∧ StructDraws.valid structW ∧
    (0.01 ≤ (simulate_metasprint 40 12 metaW).error_rate ∧
     (simulate_metasprint 40 12 metaW).error_rate ≤ 0.03 ∧
     (simulate_metasprint 40 12 metaW).error_rate <
       (simulate_traditional 40 6 tradW).error_rate ∧
     (simulate_metasprint 40 12 metaW).error_rate <
       (simulate_structured 40 6 structW).error_rate) :=
  ⟨metaW_valid, tradW_valid, structW_valid,
    metasprint_error_rate_below_others 40 12 40 6 40 6 metaW tradW structW
      metaW_valid tradW_valid structW_valid⟩

end Metasprint
